import Mathlib

/-!
# Watchtower monitoring engine — verification of the specification

Shallow embedding, in Lean 4, of the core monitoring algorithms of the
`watchtower` repository (metric evaluation, drift detection, coverage
computation, threshold classification, alert generation and playbook
execution), together with theorems settling the specification's claims
about them.

Conventions of the embedding:
* Python floats are modelled as exact rationals (`ℚ`).  The source's final
  display rounding (`round(x, 4)` on KPI values, `round(x, 2)` on coverage
  percentages) is a floating-point presentation step and is not modelled;
  all claims concern the computed values.
* The DuckDB queries that assemble a time window are the external record
  store: each function is embedded over the list of rows the query hands
  to the in-process computation, exactly as the Python code receives them.
* `datetime.now()` timestamps attached to produced records are external
  clock reads and are omitted from the record structures.
-/

namespace Watchtower

/-- Metric status, the three values the classifier in
`KPIMonitor.check_kpi_thresholds` assigns (`alert_kpis.py`). -/
inductive Status where
  | healthy
  | warning
  | critical
deriving DecidableEq, Repr

/-- Alert severity, as assigned alongside the status. -/
inductive Severity where
  | low
  | medium
  | high
deriving DecidableEq, Repr

/-- Rendering of a `Status` to the strings used in the source. -/
def statusString : Status → String
  | .healthy => "healthy"
  | .warning => "warning"
  | .critical => "critical"

/-- A thresholds record `{'min': …, 'max': …, 'critical': …}` as stored in
`KPIMonitor.alert_thresholds` (`alert_kpis.py`). -/
structure Thresholds where
  min : ℚ
  max : ℚ
  critical : ℚ
deriving DecidableEq, Repr

/-- The status/severity classification of a metric value against a
thresholds record: the `if value < thresholds['critical'] … elif … else`
chain of `KPIMonitor.check_kpi_thresholds` (`alert_kpis.py` lines
119-131). -/
def classifyStatus (value : ℚ) (t : Thresholds) : Status × Severity :=
  if value < t.critical then (Status.critical, Severity.high)
  else if value < t.min then (Status.warning, Severity.medium)
  else if value > t.max then (Status.warning, Severity.medium)
  else (Status.healthy, Severity.low)

/-- The severity the classifier pairs with each status. -/
def severityOfStatus : Status → Severity
  | .healthy => Severity.low
  | .warning => Severity.medium
  | .critical => Severity.high

end Watchtower

namespace Watchtower

/-- C1 counterexample: with the source's own `false_positive_rate`
thresholds `{min: 0.0, max: 0.1, critical: 0.15}`, the boundary value
`value = min = 0` is classified `critical`, not `healthy`, refuting the
claim's parenthetical that a value exactly equal to `min` is always
classified `healthy`. -/
theorem classify_min_not_healthy_cex :
    classifyStatus 0 ⟨0, 1/10, 3/20⟩ = (Status.critical, Severity.high) ∧
      (Status.critical, Severity.high) ≠ (Status.healthy, Severity.low) := by
  constructor
  · norm_num [classifyStatus]
  · decide

/-- C1 (amended): threshold classification is a total function assigning
exactly one status, computed as `critical` if `value < critical`, else
`warning` if `value < min` or `value > max`, else `healthy`; severity is
`high`/`medium`/`low` for `critical`/`warning`/`healthy`; a value exactly
equal to `min` or to `max` is classified `healthy` provided the thresholds
are ordered `critical ≤ min ≤ max`; and thresholds
`{min: 0.85, max: 1.0, critical: 0.80}` with value `0.75` yield status
`critical` with severity `high`. -/
theorem classify_status_spec (value : ℚ) (t : Thresholds) :
    (classifyStatus value t).1 =
        (if value < t.critical then Status.critical
         else if value < t.min ∨ value > t.max then Status.warning
         else Status.healthy) ∧
      (classifyStatus value t).2 = severityOfStatus (classifyStatus value t).1 ∧
      (t.critical ≤ t.min → t.min ≤ t.max → (classifyStatus t.min t).1 = Status.healthy) ∧
      (t.critical ≤ t.min → t.min ≤ t.max → (classifyStatus t.max t).1 = Status.healthy) ∧
      classifyStatus (3/4) ⟨17/20, 1, 4/5⟩ = (Status.critical, Severity.high) := by
  refine ⟨?_, ?_, ?_, ?_, by norm_num [classifyStatus]⟩
  · unfold classifyStatus
    by_cases h1 : value < t.critical
    · simp [h1]
    · by_cases h2 : value < t.min
      · simp [h1, h2]
      · by_cases h3 : value > t.max
        · simp [h1, h2, h3]
        · simp [h1, h2, h3]
  · unfold classifyStatus severityOfStatus
    by_cases h1 : value < t.critical
    · simp [h1]
    · by_cases h2 : value < t.min
      · simp [h1, h2]
      · by_cases h3 : value > t.max
        · simp [h1, h2, h3]
        · simp [h1, h2, h3]
  · intro hcm hmx
    unfold classifyStatus
    have h1 : ¬ t.min < t.critical := not_lt.mpr hcm
    have h2 : ¬ t.min < t.min := lt_irrefl _
    have h3 : ¬ t.min > t.max := not_lt.mpr hmx
    simp [h1, h2, h3]
  · intro hcm hmx
    unfold classifyStatus
    have h1 : ¬ t.max < t.critical := not_lt.mpr (hcm.trans hmx)
    have h2 : ¬ t.max < t.min := not_lt.mpr hmx
    have h3 : ¬ t.max > t.max := lt_irrefl _
    simp [h1, h2, h3]

/-- C1 witness: the amended classification theorem instantiated at the
spec's scenario thresholds `{min: 0.85, max: 1.0, critical: 0.80}`. -/
theorem classify_status_spec_witness :
    (classifyStatus (17/20) ⟨17/20, 1, 4/5⟩).1 = Status.healthy ∧
      classifyStatus (3/4) ⟨17/20, 1, 4/5⟩ = (Status.critical, Severity.high) := by
  have h := classify_status_spec (17/20) ⟨17/20, 1, 4/5⟩
  exact ⟨h.2.2.1 (by norm_num) (by norm_num), h.2.2.2.2⟩

end Watchtower

namespace Watchtower

/-- One row of the joined predictions/labels query in
`KPIMonitor.calculate_kpis` (`alert_kpis.py`): the actual label, the
predicted label, and the predicted fraud probability. -/
structure OutcomeRecord where
  actual : Bool
  predicted : Bool
  probability : ℚ
deriving DecidableEq, Repr

/-- True positives: `(actual == 1) & (predicted == 1)` count. -/
def countTP (w : List OutcomeRecord) : ℕ :=
  (w.filter fun r => r.actual && r.predicted).length

/-- False positives: `(actual == 0) & (predicted == 1)` count. -/
def countFP (w : List OutcomeRecord) : ℕ :=
  (w.filter fun r => !r.actual && r.predicted).length

/-- True negatives: `(actual == 0) & (predicted == 0)` count. -/
def countTN (w : List OutcomeRecord) : ℕ :=
  (w.filter fun r => !r.actual && !r.predicted).length

/-- False negatives: `(actual == 1) & (predicted == 0)` count. -/
def countFN (w : List OutcomeRecord) : ℕ :=
  (w.filter fun r => r.actual && !r.predicted).length

/-- The KPI dictionary returned by `KPIMonitor.calculate_kpis` on a
non-empty window (`alert_kpis.py` lines 89-99).  The source's final
`round(·, 4)` presentation rounding is omitted (see file header). -/
structure KPIs where
  accuracy : ℚ
  precision : ℚ
  «recall» : ℚ
  f1_score : ℚ
  auc_score : ℚ
  false_positive_rate : ℚ
  false_negative_rate : ℚ
  total_samples : ℕ
deriving DecidableEq, Repr

/-- The possible outcomes of a call to `calculate_kpis`: an ordinary KPI
dictionary, the empty dictionary `{}` the source returns on an empty
window, or a Python exception escaping the call.  The `raised`
constructor records the possibility space only; the source body contains
no `raise` statement, so the embedding never produces it. -/
inductive KpiEvalOutcome where
  | metrics (k : KPIs)
  | emptyResult
  | raised (error : String)
deriving DecidableEq, Repr

/-- The non-empty branch of `KPIMonitor.calculate_kpis` (`alert_kpis.py`
lines 71-99): the confusion-matrix KPIs, each ratio guarded to `0` when
its denominator is `0`, and a hard-coded `auc_score = 0.85`. -/
def kpisOf (w : List OutcomeRecord) : KPIs :=
    let total : ℕ := w.length
    let correct : ℕ := (w.filter fun r => r.actual == r.predicted).length
    let tp := countTP w
    let fp := countFP w
    let tn := countTN w
    let fm := countFN w
    let accuracy : ℚ := if 0 < total then (correct : ℚ) / (total : ℚ) else 0
    let precision : ℚ := if 0 < tp + fp then (tp : ℚ) / ((tp : ℚ) + (fp : ℚ)) else 0
    let «recall» : ℚ := if 0 < tp + fm then (tp : ℚ) / ((tp : ℚ) + (fm : ℚ)) else 0
    let f1 : ℚ :=
      if 0 < precision + «recall» then 2 * (precision * «recall») / (precision + «recall») else 0
    let fpr : ℚ := if 0 < fp + tn then (fp : ℚ) / ((fp : ℚ) + (tn : ℚ)) else 0
    let fnr : ℚ := if 0 < fm + tp then (fm : ℚ) / ((fm : ℚ) + (tp : ℚ)) else 0
    { accuracy := accuracy
      precision := precision
      «recall» := «recall»
      f1_score := f1
      auc_score := 17/20
      false_positive_rate := fpr
      false_negative_rate := fnr
      total_samples := total }

/-- `KPIMonitor.calculate_kpis` (`alert_kpis.py` lines 38-99), embedded
over the list of joined query rows.  On an empty window the source
executes `if not result: return {}` (modelled as `emptyResult`);
otherwise it returns the KPI dictionary `kpisOf w`. -/
def calculateKpis (w : List OutcomeRecord) : KpiEvalOutcome :=
  if w.isEmpty then KpiEvalOutcome.emptyResult
  else KpiEvalOutcome.metrics (kpisOf w)

/-- The four-record scenario window of the spec (probabilities taken from
the repository's own test fixture). -/
def kpiScenarioWindow : List OutcomeRecord :=
  [⟨true, true, 19/20⟩, ⟨false, false, 1/20⟩, ⟨true, false, 17/20⟩, ⟨false, true, 3/20⟩]

/-- Correct predictions are exactly the true positives plus the true
negatives. -/
lemma correct_eq_tp_add_tn (w : List OutcomeRecord) :
    (w.filter fun r => r.actual == r.predicted).length = countTP w + countTN w := by
  induction w with
  | nil => simp [countTP, countTN]
  | cons r rest ih =>
      unfold countTP countTN at *
      cases ha : r.actual <;> cases hp : r.predicted <;>
        simp [List.filter_cons, ha, hp] <;> omega

/-- The four confusion-matrix counts partition the window. -/
lemma confusion_partition (w : List OutcomeRecord) :
    countTP w + countFP w + countTN w + countFN w = w.length := by
  induction w with
  | nil => simp [countTP, countFP, countTN, countFN]
  | cons r rest ih =>
      unfold countTP countFP countTN countFN at *
      cases ha : r.actual <;> cases hp : r.predicted <;>
        simp [List.filter_cons, ha, hp] <;> omega

/-- A guarded confusion-matrix ratio agrees with the unguarded rational
formula (division by zero is `0` in `ℚ`, and a zero denominator forces a
zero numerator here). -/
lemma guarded_ratio_eq (a b : ℕ) :
    (if 0 < a + b then (a : ℚ) / ((a : ℚ) + (b : ℚ)) else 0) = (a : ℚ) / ((a : ℚ) + (b : ℚ)) := by
  by_cases h : 0 < a + b
  · simp [h]
  · have ha : a = 0 := by omega
    have hb : b = 0 := by omega
    simp [h, ha, hb]

/-- The guarded F1 formula agrees with the unguarded one for nonnegative
precision and recall. -/
lemma guarded_f1_eq (p r : ℚ) (hp : 0 ≤ p) (hr : 0 ≤ r) :
    (if 0 < p + r then 2 * (p * r) / (p + r) else 0) = 2 * (p * r) / (p + r) := by
  by_cases h : 0 < p + r
  · simp [h]
  · have hpr : p + r = 0 := le_antisymm (not_lt.mp h) (by linarith)
    have hp0 : p = 0 := by linarith
    simp [h, hp0]

end Watchtower

namespace Watchtower

/-- A guarded confusion-matrix ratio is nonnegative. -/
lemma guarded_ratio_nonneg (a b : ℕ) :
    0 ≤ (if 0 < a + b then (a : ℚ) / ((a : ℚ) + (b : ℚ)) else 0) := by
  split
  · positivity
  · exact le_refl 0

/-- On a non-empty window, `calculate_kpis` takes the metric branch. -/
lemma calculateKpis_ne_nil (w : List OutcomeRecord) (hw : w ≠ []) :
    calculateKpis w = KpiEvalOutcome.metrics (kpisOf w) := by
  cases w with
  | nil => exact absurd rfl hw
  | cons a l => rfl

/-- Accuracy field of the KPI record: `(TP + TN) / N`. -/
lemma kpisOf_accuracy (w : List OutcomeRecord) (hw : w ≠ []) :
    (kpisOf w).accuracy = ((countTP w : ℚ) + (countTN w : ℚ)) / (w.length : ℚ) := by
  have hlen : 0 < w.length := List.length_pos.mpr hw
  simp only [kpisOf, if_pos hlen, correct_eq_tp_add_tn]
  push_cast
  ring

/-- Precision field of the KPI record: `TP / (TP + FP)`. -/
lemma kpisOf_precision (w : List OutcomeRecord) :
    (kpisOf w).precision = (countTP w : ℚ) / ((countTP w : ℚ) + (countFP w : ℚ)) := by
  simp only [kpisOf]
  exact guarded_ratio_eq _ _

/-- Recall field of the KPI record: `TP / (TP + FN)`. -/
lemma kpisOf_recall (w : List OutcomeRecord) :
    (kpisOf w).recall = (countTP w : ℚ) / ((countTP w : ℚ) + (countFN w : ℚ)) := by
  simp only [kpisOf]
  exact guarded_ratio_eq _ _

/-- False-positive-rate field of the KPI record: `FP / (FP + TN)`. -/
lemma kpisOf_fpr (w : List OutcomeRecord) :
    (kpisOf w).false_positive_rate = (countFP w : ℚ) / ((countFP w : ℚ) + (countTN w : ℚ)) := by
  simp only [kpisOf]
  exact guarded_ratio_eq _ _

/-- False-negative-rate field of the KPI record: `FN / (FN + TP)`. -/
lemma kpisOf_fnr (w : List OutcomeRecord) :
    (kpisOf w).false_negative_rate = (countFN w : ℚ) / ((countFN w : ℚ) + (countTP w : ℚ)) := by
  simp only [kpisOf]
  exact guarded_ratio_eq _ _

/-- F1 field of the KPI record: the harmonic-mean formula over the
record's own precision and recall fields. -/
lemma kpisOf_f1 (w : List OutcomeRecord) :
    (kpisOf w).f1_score =
      2 * ((kpisOf w).precision * (kpisOf w).recall) /
        ((kpisOf w).precision + (kpisOf w).recall) := by
  simp only [kpisOf]
  exact guarded_f1_eq _ _ (guarded_ratio_nonneg _ _) (guarded_ratio_nonneg _ _)

end Watchtower

namespace Watchtower

/-- C2: on every non-empty window the KPI evaluator returns
`accuracy = (TP+TN)/N`, `precision = TP/(TP+FP)` (0 when `TP+FP = 0`),
`recall = TP/(TP+FN)` (0 when `TP+FN = 0`),
`f1 = 2·precision·recall/(precision+recall)` (0 when the sum is 0),
`false_positive_rate = FP/(FP+TN)` and `false_negative_rate = FN/(FN+TP)`,
with `TP+FP+TN+FN = N`; on the four-record scenario window it returns
`accuracy = precision = recall = f1 = 1/2`. -/
theorem calculate_kpis_formulas :
    (∀ w : List OutcomeRecord, w ≠ [] →
      ∃ k, calculateKpis w = KpiEvalOutcome.metrics k ∧
        countTP w + countFP w + countTN w + countFN w = w.length ∧
        k.accuracy = ((countTP w : ℚ) + (countTN w : ℚ)) / (w.length : ℚ) ∧
        k.precision = (countTP w : ℚ) / ((countTP w : ℚ) + (countFP w : ℚ)) ∧
        (countTP w + countFP w = 0 → k.precision = 0) ∧
        k.recall = (countTP w : ℚ) / ((countTP w : ℚ) + (countFN w : ℚ)) ∧
        (countTP w + countFN w = 0 → k.recall = 0) ∧
        k.f1_score = 2 * (k.precision * k.recall) / (k.precision + k.recall) ∧
        (k.precision + k.recall = 0 → k.f1_score = 0) ∧
        k.false_positive_rate = (countFP w : ℚ) / ((countFP w : ℚ) + (countTN w : ℚ)) ∧
        k.false_negative_rate = (countFN w : ℚ) / ((countFN w : ℚ) + (countTP w : ℚ))) ∧
    (∃ k, calculateKpis kpiScenarioWindow = KpiEvalOutcome.metrics k ∧
      k.accuracy = 1/2 ∧ k.precision = 1/2 ∧ k.recall = 1/2 ∧ k.f1_score = 1/2) := by
  constructor
  · intro w hw
    refine ⟨kpisOf w, calculateKpis_ne_nil w hw, confusion_partition w,
      kpisOf_accuracy w hw, kpisOf_precision w, ?_, kpisOf_recall w, ?_,
      kpisOf_f1 w, ?_, kpisOf_fpr w, kpisOf_fnr w⟩
    · intro h
      have h1 : countTP w = 0 := by omega
      have h2 : countFP w = 0 := by omega
      rw [kpisOf_precision, h1, h2]
      norm_num
    · intro h
      have h1 : countTP w = 0 := by omega
      have h2 : countFN w = 0 := by omega
      rw [kpisOf_recall, h1, h2]
      norm_num
    · intro h
      rw [kpisOf_f1, h, div_zero]
  · have hw : kpiScenarioWindow ≠ [] := by simp [kpiScenarioWindow]
    have h1 : countTP kpiScenarioWindow = 1 := rfl
    have h2 : countTN kpiScenarioWindow = 1 := rfl
    have h3 : countFP kpiScenarioWindow = 1 := rfl
    have h4 : countFN kpiScenarioWindow = 1 := rfl
    have h5 : kpiScenarioWindow.length = 4 := rfl
    refine ⟨kpisOf kpiScenarioWindow, calculateKpis_ne_nil _ hw, ?_, ?_, ?_, ?_⟩
    · rw [kpisOf_accuracy _ hw, h1, h2, h5]
      norm_num
    · rw [kpisOf_precision, h1, h3]
      norm_num
    · rw [kpisOf_recall, h1, h4]
      norm_num
    · rw [kpisOf_f1, kpisOf_precision, kpisOf_recall, h1, h3, h4]
      norm_num

/-- C2 witness: the formulas instantiated on the concrete scenario window
(first part) together with the scenario conclusion itself. -/
theorem calculate_kpis_formulas_witness :
    ∃ k, calculateKpis kpiScenarioWindow = KpiEvalOutcome.metrics k ∧
      k.accuracy = ((countTP kpiScenarioWindow : ℚ) + (countTN kpiScenarioWindow : ℚ)) /
        (kpiScenarioWindow.length : ℚ) := by
  obtain ⟨k, hk, _, hacc, _⟩ :=
    calculate_kpis_formulas.1 kpiScenarioWindow (by simp [kpiScenarioWindow])
  exact ⟨k, hk, hacc⟩

end Watchtower

namespace Watchtower

/-- C6 counterexample: on the empty window `calculate_kpis` executes
`if not result: return {}` — it returns the empty dictionary and does not
raise `InsufficientDataError` (no `raise` exists in its body; the name
`InsufficientDataError` appears nowhere in the repository). -/
theorem calculate_kpis_empty_cex :
    calculateKpis [] = KpiEvalOutcome.emptyResult ∧
      calculateKpis [] ≠ KpiEvalOutcome.raised "InsufficientDataError" := by
  refine ⟨rfl, ?_⟩
  intro h
  rw [show calculateKpis [] = KpiEvalOutcome.emptyResult from rfl] at h
  exact KpiEvalOutcome.noConfusion h

/-- C6 (amended): when the window contains zero outcome records the
evaluator returns the empty result dictionary `{}` — an explicit
"no metrics produced" signal the caller must handle — rather than an
ordinary metrics dictionary, and it never raises an exception; the empty
result occurs exactly on the empty window. -/
theorem calculate_kpis_empty_behavior :
    (∀ w : List OutcomeRecord, calculateKpis w = KpiEvalOutcome.emptyResult ↔ w = []) ∧
      (∀ (w : List OutcomeRecord) (e : String), calculateKpis w ≠ KpiEvalOutcome.raised e) ∧
      (∀ w : List OutcomeRecord, w ≠ [] → ∃ k, calculateKpis w = KpiEvalOutcome.metrics k) := by
  refine ⟨?_, ?_, ?_⟩
  · intro w
    cases w with
    | nil => simp [calculateKpis]
    | cons a l =>
        rw [calculateKpis_ne_nil (a :: l) (by simp)]
        simp
  · intro w e h
    cases w with
    | nil => exact KpiEvalOutcome.noConfusion h
    | cons a l =>
        rw [calculateKpis_ne_nil (a :: l) (by simp)] at h
        exact KpiEvalOutcome.noConfusion h
  · intro w hw
    exact ⟨kpisOf w, calculateKpis_ne_nil w hw⟩

/-- C6 witness: the amended behaviour at the empty window and at a
concrete one-record window. -/
theorem calculate_kpis_empty_behavior_witness :
    calculateKpis [] = KpiEvalOutcome.emptyResult ∧
      calculateKpis [⟨true, true, 1/2⟩] ≠ KpiEvalOutcome.raised "InsufficientDataError" := by
  exact ⟨(calculate_kpis_empty_behavior.1 []).mpr rfl,
    calculate_kpis_empty_behavior.2.1 [⟨true, true, 1/2⟩] "InsufficientDataError"⟩

/-- C10: on every non-empty window the `auc_score` entry of the KPI
result is the hard-coded constant `0.85 = 17/20`, independent of the
probabilities and labels in the window (`auc_score = 0.85  # TODO` in
`alert_kpis.py`). -/
theorem auc_score_hardcoded (w : List OutcomeRecord) (hw : w ≠ []) :
    ∃ k, calculateKpis w = KpiEvalOutcome.metrics k ∧ k.auc_score = 17/20 := by
  refine ⟨kpisOf w, calculateKpis_ne_nil w hw, ?_⟩
  simp only [kpisOf]

/-- C10 witness: the hard-coded AUC at a concrete window whose
probability/label pairs would give a genuine AUC of 1. -/
theorem auc_score_hardcoded_witness :
    ∃ k, calculateKpis [⟨true, true, 1⟩, ⟨false, false, 0⟩] = KpiEvalOutcome.metrics k ∧
      k.auc_score = 17/20 := by
  exact auc_score_hardcoded [⟨true, true, 1⟩, ⟨false, false, 0⟩] (by simp)

end Watchtower

namespace Watchtower

/-- Round a rational to the nearest integer, ties to the even integer
(the rounding IEEE-754 formatting applies to a value sitting exactly
halfway). -/
def roundHalfEven (q : ℚ) : ℤ :=
  let fl := ⌊q⌋
  let frac := q - (fl : ℚ)
  if frac < 1/2 then fl
  else if 1/2 < frac then fl + 1
  else if fl % 2 = 0 then fl else fl + 1

/-- Left-pad a natural number below 1000 to three digits. -/
def padThree (n : ℕ) : String :=
  if n < 10 then "00" ++ toString n
  else if n < 100 then "0" ++ toString n
  else toString n

/-- The fixed three-decimal rendering `f"{q:.3f}"` used in the alert
message of `check_kpi_thresholds` (`alert_kpis.py` line 141). -/
def fmt3 (q : ℚ) : String :=
  let n := roundHalfEven (q * 1000)
  let sign := if n < 0 then "-" else ""
  let m := n.natAbs
  sign ++ toString (m / 1000) ++ "." ++ padThree (m % 1000)

/-- The alert dictionary built by `KPIMonitor.check_kpi_thresholds`
(`alert_kpis.py` lines 134-146); the `datetime.now()` timestamp is an
external clock read and is omitted. -/
structure Alert where
  metric_name : String
  current_value : ℚ
  threshold_min : ℚ
  threshold_max : ℚ
  threshold_critical : ℚ
  status : Status
  severity : Severity
  message : String
deriving DecidableEq, Repr

/-- Construction of one alert record, message included, exactly as in
`check_kpi_thresholds` (`alert_kpis.py` lines 135-145). -/
def mkAlert (name : String) (value : ℚ) (t : Thresholds) (s : Status × Severity) : Alert :=
  { metric_name := name
    current_value := value
    threshold_min := t.min
    threshold_max := t.max
    threshold_critical := t.critical
    status := s.1
    severity := s.2
    message := name ++ " is " ++ statusString s.1 ++ ": " ++ fmt3 value ++
      " (threshold: " ++ fmt3 t.min ++ "-" ++ fmt3 t.max ++ ")" }

/-- Dictionary lookup `self.alert_thresholds[metric_name]`, with the
`metric_name not in self.alert_thresholds` test modelled by `none`. -/
def lookupThresholds (name : String) : List (String × Thresholds) → Option Thresholds
  | [] => none
  | (n, t) :: rest => if n = name then some t else lookupThresholds name rest

/-- `KPIMonitor.alert_thresholds` (`alert_kpis.py` lines 23-31). -/
def alertThresholds : List (String × Thresholds) :=
  [("accuracy", ⟨17/20, 1, 4/5⟩),
   ("precision", ⟨4/5, 1, 3/4⟩),
   ("recall", ⟨3/4, 1, 7/10⟩),
   ("f1_score", ⟨4/5, 1, 3/4⟩),
   ("auc_score", ⟨17/20, 1, 4/5⟩),
   ("false_positive_rate", ⟨0, 1/10, 3/20⟩),
   ("false_negative_rate", ⟨0, 1/5, 1/4⟩)]

/-- `KPIMonitor.check_kpi_thresholds` (`alert_kpis.py` lines 101-147):
iterate over the KPI entries in order, skip metrics absent from the
thresholds table, classify each remaining value, and append an alert
exactly when the status is not `healthy`. -/
def checkKpiThresholds (table : List (String × Thresholds)) :
    List (String × ℚ) → List Alert
  | [] => []
  | (name, value) :: rest =>
      match lookupThresholds name table with
      | none => checkKpiThresholds table rest
      | some t =>
          let s := classifyStatus value t
          if s.1 = Status.healthy then checkKpiThresholds table rest
          else mkAlert name value t s :: checkKpiThresholds table rest

/-- The alert (if any) a single KPI entry contributes: `none` for
untabled or healthy metrics, one alert otherwise. -/
def alertFor (table : List (String × Thresholds)) (p : String × ℚ) : Option Alert :=
  match lookupThresholds p.1 table with
  | none => none
  | some t =>
      if (classifyStatus p.2 t).1 = Status.healthy then none
      else some (mkAlert p.1 p.2 t (classifyStatus p.2 t))

/-- The classifier always pairs a status with its canonical severity. -/
lemma classifyStatus_snd (value : ℚ) (t : Thresholds) :
    (classifyStatus value t).2 = severityOfStatus (classifyStatus value t).1 := by
  unfold classifyStatus severityOfStatus
  by_cases h1 : value < t.critical
  · simp [h1]
  · by_cases h2 : value < t.min
    · simp [h1, h2]
    · by_cases h3 : value > t.max
      · simp [h1, h2, h3]
      · simp [h1, h2, h3]

/-- Characterisation of a contributed alert. -/
lemma alertFor_some (table : List (String × Thresholds)) (p : String × ℚ) (a : Alert)
    (h : alertFor table p = some a) :
    ∃ t, lookupThresholds p.1 table = some t ∧
      (classifyStatus p.2 t).1 ≠ Status.healthy ∧
      a = mkAlert p.1 p.2 t (classifyStatus p.2 t) := by
  unfold alertFor at h
  cases hl : lookupThresholds p.1 table with
  | none => rw [hl] at h; exact Option.noConfusion h
  | some t =>
      rw [hl] at h
      simp only at h
      by_cases hs : (classifyStatus p.2 t).1 = Status.healthy
      · rw [if_pos hs] at h; exact Option.noConfusion h
      · rw [if_neg hs] at h
        exact ⟨t, rfl, hs, (Option.some_injective _ h).symm⟩

/-- The threshold checker is the per-entry alert map. -/
lemma checkKpiThresholds_eq_filterMap (table : List (String × Thresholds))
    (kpis : List (String × ℚ)) :
    checkKpiThresholds table kpis = kpis.filterMap (alertFor table) := by
  induction kpis with
  | nil => rfl
  | cons p rest ih =>
      obtain ⟨name, value⟩ := p
      rw [List.filterMap_cons]
      show (match lookupThresholds name table with
        | none => checkKpiThresholds table rest
        | some t =>
            let s := classifyStatus value t
            if s.1 = Status.healthy then checkKpiThresholds table rest
            else mkAlert name value t s :: checkKpiThresholds table rest) = _
      cases hl : lookupThresholds name table with
      | none => simpa [alertFor, hl] using ih
      | some t =>
          by_cases hs : (classifyStatus value t).1 = Status.healthy
          · simpa [alertFor, hl, hs] using ih
          · simpa [alertFor, hl, hs] using ih

end Watchtower

namespace Watchtower

/-- A contributed alert carries its entry's metric name. -/
lemma alertFor_name (table : List (String × Thresholds)) (p : String × ℚ) (a : Alert)
    (h : alertFor table p = some a) : a.metric_name = p.1 := by
  obtain ⟨t, _, _, ha⟩ := alertFor_some table p a h
  rw [ha]
  rfl

/-- C9: alert generation emits exactly one alert per tabled metric whose
classified status is not `healthy` (in KPI order) and none for a healthy
metric, and every emitted alert's message is the deterministic string
`"<metric> is <status>: <value> (threshold: <min>-<max>)"` with the value
and both threshold bounds rendered to exactly three decimal places. -/
theorem check_kpi_thresholds_alerts (table : List (String × Thresholds))
    (kpis : List (String × ℚ)) :
    (∀ a ∈ checkKpiThresholds table kpis,
        a.status ≠ Status.healthy ∧
        a.severity = severityOfStatus a.status ∧
        a.message = a.metric_name ++ " is " ++ statusString a.status ++ ": " ++
          fmt3 a.current_value ++ " (threshold: " ++ fmt3 a.threshold_min ++ "-" ++
          fmt3 a.threshold_max ++ ")") ∧
      checkKpiThresholds table kpis = kpis.filterMap (alertFor table) ∧
      (checkKpiThresholds table kpis).map (fun a => a.metric_name) =
        (kpis.filter fun p => (alertFor table p).isSome).map Prod.fst := by
  refine ⟨?_, checkKpiThresholds_eq_filterMap table kpis, ?_⟩
  · intro a ha
    rw [checkKpiThresholds_eq_filterMap table kpis] at ha
    obtain ⟨p, _, hpa⟩ := List.mem_filterMap.mp ha
    obtain ⟨t, _, hs, hmk⟩ := alertFor_some table p a hpa
    subst hmk
    refine ⟨hs, ?_, rfl⟩
    show (classifyStatus p.2 t).2 = severityOfStatus (classifyStatus p.2 t).1
    exact classifyStatus_snd p.2 t
  · rw [checkKpiThresholds_eq_filterMap table kpis]
    induction kpis with
    | nil => rfl
    | cons p rest ih =>
        rw [List.filterMap_cons, List.filter_cons]
        cases hp : alertFor table p with
        | none => simpa [hp] using ih
        | some a =>
            have hname := alertFor_name table p a hp
            simp [hp, hname, ih]

/-- C9 witness: the alert characterisation applied to the source's own
thresholds table and the concrete KPI entry `accuracy = 0.75`. -/
theorem check_kpi_thresholds_alerts_witness :
    (checkKpiThresholds alertThresholds [("accuracy", (3:ℚ)/4)]).map
        (fun a => a.metric_name) =
      ([(("accuracy" : String), (3:ℚ)/4)].filter
        fun p => (alertFor alertThresholds p).isSome).map Prod.fst :=
  (check_kpi_thresholds_alerts alertThresholds [("accuracy", (3:ℚ)/4)]).2.2

end Watchtower

namespace Watchtower

/-- One row of the coverage window query in
`CoverageMonitor.calculate_coverage` (`coverage.py`): the fraud label and
the model prediction, `none` when the `LEFT JOIN` produced a NULL. -/
structure CoverageRecord where
  is_fraud : Bool
  prediction : Option Bool
deriving DecidableEq, Repr

/-- `fraud_transactions = SUM(CASE WHEN is_fraud = 1 THEN 1 ELSE 0 END)`. -/
def countFraud (w : List CoverageRecord) : ℕ :=
  (w.filter fun r => r.is_fraud).length

/-- `predicted_fraud = SUM(CASE WHEN p.prediction = 1 THEN 1 ELSE 0 END)`;
a NULL prediction compares unequal to 1. -/
def countPredictedFraud (w : List CoverageRecord) : ℕ :=
  (w.filter fun r => r.prediction == some true).length

/-- The result dictionary of `calculate_coverage` (`coverage.py` lines
58-76).  The `round(·, 2)` presentation rounding on the percentage is
omitted; the `risk_category`/`time_window_hours` pass-through fields are
dropped. -/
structure CoverageResult where
  coverage_percentage : ℚ
  total_samples : ℕ
  covered_samples : ℕ
  gap_count : ℤ
deriving DecidableEq, Repr

/-- `CoverageMonitor.calculate_coverage` (`coverage.py` lines 27-76),
embedded over the joined window rows: on an empty window
(`not result or result[0] == 0`) every field is zero; otherwise the
coverage percentage is `predicted_fraud / fraud_transactions * 100`,
guarded to `0` when `fraud_transactions = 0`, and
`gap_count = fraud_transactions - predicted_fraud`. -/
def calculateCoverage (w : List CoverageRecord) : CoverageResult :=
  if w.isEmpty then
    { coverage_percentage := 0, total_samples := 0, covered_samples := 0, gap_count := 0 }
  else
    let total := w.length
    let fraud := countFraud w
    let predicted := countPredictedFraud w
    let pct : ℚ := if 0 < fraud then (predicted : ℚ) / (fraud : ℚ) * 100 else 0
    { coverage_percentage := pct
      total_samples := total
      covered_samples := predicted
      gap_count := (fraud : ℤ) - (predicted : ℤ) }

/-- C5: for every window, coverage returns
`coverage_percentage = predicted_positive / actual_positive × 100`,
`gap_count = actual_positive − predicted_positive`, a zero percentage
(without any division) when the actual-positive count is zero, and always
`covered_samples ≤ total_samples`. -/
theorem calculate_coverage_spec (w : List CoverageRecord) :
    (calculateCoverage w).covered_samples ≤ (calculateCoverage w).total_samples ∧
      (calculateCoverage w).gap_count =
        (countFraud w : ℤ) - (countPredictedFraud w : ℤ) ∧
      (0 < countFraud w →
        (calculateCoverage w).coverage_percentage =
          (countPredictedFraud w : ℚ) / (countFraud w : ℚ) * 100) ∧
      (countFraud w = 0 → (calculateCoverage w).coverage_percentage = 0) := by
  cases w with
  | nil =>
      refine ⟨le_refl 0, ?_, ?_, ?_⟩
      · simp [calculateCoverage, countFraud, countPredictedFraud]
      · intro h
        simp [countFraud] at h
      · intro _
        simp [calculateCoverage]
  | cons r rest =>
      have hred : calculateCoverage (r :: rest) =
          { coverage_percentage :=
              if 0 < countFraud (r :: rest) then
                (countPredictedFraud (r :: rest) : ℚ) / (countFraud (r :: rest) : ℚ) * 100
              else 0
            total_samples := (r :: rest).length
            covered_samples := countPredictedFraud (r :: rest)
            gap_count :=
              (countFraud (r :: rest) : ℤ) - (countPredictedFraud (r :: rest) : ℤ) } := rfl
      rw [hred]
      refine ⟨List.length_filter_le _ _, rfl, ?_, ?_⟩
      · intro h
        simp only [if_pos h]
      · intro h
        simp only [h, lt_irrefl, if_false]

/-- C5 witness: the coverage formulas at a concrete one-fraud-record
window (full coverage: percentage 100). -/
theorem calculate_coverage_spec_witness :
    (calculateCoverage [⟨true, some true⟩]).coverage_percentage =
        (countPredictedFraud [⟨true, some true⟩] : ℚ) /
          (countFraud [⟨true, some true⟩] : ℚ) * 100 ∧
      (calculateCoverage [⟨true, some true⟩]).covered_samples ≤
        (calculateCoverage [⟨true, some true⟩]).total_samples := by
  have h := calculate_coverage_spec [⟨true, some true⟩]
  exact ⟨h.2.2.1 (by decide), h.1⟩

end Watchtower

namespace Watchtower

/-- Empirical CDF of a sample at a point: the fraction of the sample's
values that are `≤ x` (the quantity whose largest gap the two-sample KS
statistic measures). -/
def ecdf (xs : List ℚ) (x : ℚ) : ℚ :=
  ((xs.filter fun v => v ≤ x).length : ℚ) / (xs.length : ℚ)

/-- The two-sample Kolmogorov–Smirnov statistic returned by
`scipy.stats.ks_2samp` (an external statistics library call in
`DriftDetector.detect_statistical_drift`): the supremum of the vertical
gap between the two empirical CDFs, attained at a point of the pooled
sample. -/
def ksStatistic (xs ys : List ℚ) : ℚ :=
  ((xs ++ ys).map fun x => |ecdf xs x - ecdf ys x|).foldr max 0

/-- The result dictionary shared by the drift detection modes
(`drift.py`); `severity` is absent (`none`) on the insufficient-data
path, and the `feature_name` pass-through field is dropped. -/
structure DriftResult where
  drift_score : ℚ
  p_value : ℚ
  drift_detected : Bool
  drift_type : String
  severity : Option Severity
deriving DecidableEq, Repr

/-- `DriftDetector.detect_statistical_drift` (`drift.py` lines 62-111),
embedded over the two samples of feature values.  The p-value of
`scipy.stats.ks_2samp` is computed by the external statistics library and
is therefore a parameter `pValue`; the test statistic is `ksStatistic`.
`driftThreshold` is `settings.drift_threshold` (default `0.1`).  The
`round(·, 4)` on the returned score and p-value is presentation
rounding, omitted. -/
def detectStatisticalDrift (pValue : List ℚ → List ℚ → ℚ) (driftThreshold : ℚ)
    (baseline current : List ℚ) : DriftResult :=
  if baseline.isEmpty || current.isEmpty then
    { drift_score := 0, p_value := 1, drift_detected := false
      drift_type := "insufficient_data", severity := none }
  else
    let ks := ksStatistic baseline current
    let p := pValue baseline current
    let detected := decide (p < 1/20) && decide (driftThreshold < ks)
    let severity :=
      if ks > 3/10 then Severity.high
      else if ks > 3/20 then Severity.medium
      else Severity.low
    { drift_score := ks, p_value := p, drift_detected := detected
      drift_type := "statistical", severity := some severity }

/-- An empirical CDF value is nonnegative. -/
lemma ecdf_nonneg (xs : List ℚ) (x : ℚ) : 0 ≤ ecdf xs x := by
  unfold ecdf
  positivity

/-- An empirical CDF value is at most one. -/
lemma ecdf_le_one (xs : List ℚ) (x : ℚ) : ecdf xs x ≤ 1 := by
  unfold ecdf
  rcases Nat.eq_zero_or_pos xs.length with h | h
  · rw [h]
    simp
  · apply div_le_one_of_le₀
    · exact_mod_cast List.length_filter_le _ _
    · positivity

/-- A fold of `max` over a list starting at `0` is nonnegative. -/
lemma foldr_max_zero_nonneg (l : List ℚ) : 0 ≤ l.foldr max 0 := by
  induction l with
  | nil => exact le_refl 0
  | cons a l ih => exact ih.trans (le_max_right a _)

/-- A fold of `max` over a list starting at `0` is bounded by any
nonnegative bound on the elements. -/
lemma foldr_max_zero_le (l : List ℚ) (c : ℚ) (hc : 0 ≤ c)
    (h : ∀ x ∈ l, x ≤ c) : l.foldr max 0 ≤ c := by
  induction l with
  | nil => exact hc
  | cons a l ih =>
      exact max_le (h a (by simp)) (ih fun x hx => h x (by simp [hx]))

/-- The KS statistic is nonnegative. -/
lemma ksStatistic_nonneg (xs ys : List ℚ) : 0 ≤ ksStatistic xs ys :=
  foldr_max_zero_nonneg _

/-- The KS statistic is at most one. -/
lemma ksStatistic_le_one (xs ys : List ℚ) : ksStatistic xs ys ≤ 1 := by
  apply foldr_max_zero_le _ _ (by norm_num)
  intro x hx
  obtain ⟨y, _, hy⟩ := List.mem_map.mp hx
  rw [← hy]
  apply abs_sub_le_iff.mpr
  constructor
  · linarith [ecdf_le_one xs y, ecdf_nonneg ys y]
  · linarith [ecdf_le_one ys y, ecdf_nonneg xs y]

end Watchtower

namespace Watchtower

/-- C3: on non-empty samples, statistical drift detection returns
`drift_score` equal to the two-sample KS statistic, which lies in
`[0, 1]`; `drift_detected` holds iff the p-value is below `0.05` AND the
score exceeds the configured drift threshold; and severity is `high`
above `0.3`, `medium` above `0.15`, `low` otherwise. -/
theorem detect_statistical_drift_spec (pValue : List ℚ → List ℚ → ℚ)
    (driftThreshold : ℚ) (baseline current : List ℚ)
    (hb : baseline ≠ []) (hc : current ≠ []) :
    (detectStatisticalDrift pValue driftThreshold baseline current).drift_score =
        ksStatistic baseline current ∧
      0 ≤ ksStatistic baseline current ∧
      ksStatistic baseline current ≤ 1 ∧
      ((detectStatisticalDrift pValue driftThreshold baseline current).drift_detected = true ↔
        pValue baseline current < 1/20 ∧
          driftThreshold < ksStatistic baseline current) ∧
      (detectStatisticalDrift pValue driftThreshold baseline current).severity =
        some (if ksStatistic baseline current > 3/10 then Severity.high
          else if ksStatistic baseline current > 3/20 then Severity.medium
          else Severity.low) := by
  have hbe : baseline.isEmpty = false := by
    cases baseline
    · exact absurd rfl hb
    · rfl
  have hce : current.isEmpty = false := by
    cases current
    · exact absurd rfl hc
    · rfl
  have hred : detectStatisticalDrift pValue driftThreshold baseline current =
      { drift_score := ksStatistic baseline current
        p_value := pValue baseline current
        drift_detected := decide (pValue baseline current < 1/20) &&
          decide (driftThreshold < ksStatistic baseline current)
        drift_type := "statistical"
        severity := some (if ksStatistic baseline current > 3/10 then Severity.high
          else if ksStatistic baseline current > 3/20 then Severity.medium
          else Severity.low) } := by
    unfold detectStatisticalDrift
    rw [hbe, hce]
    rfl
  rw [hred]
  refine ⟨rfl, ksStatistic_nonneg baseline current, ksStatistic_le_one baseline current,
    ?_, rfl⟩
  simp [Bool.and_eq_true, decide_eq_true_eq]

/-- C3 witness: the statistical-drift contract at the concrete samples
`[1]` and `[2]` with a constant p-value function `1/2` and the default
threshold `0.1`. -/
theorem detect_statistical_drift_spec_witness :
    (detectStatisticalDrift (fun _ _ => 1/2) (1/10) [1] [2]).drift_score =
        ksStatistic [1] [2] ∧
      0 ≤ ksStatistic [(1:ℚ)] [2] ∧ ksStatistic [(1:ℚ)] [2] ≤ 1 := by
  have h := detect_statistical_drift_spec (fun _ _ => 1/2) (1/10) [1] [2]
    (by simp) (by simp)
  exact ⟨h.1, h.2.1, h.2.2.1⟩

/-- C7: when either sample is empty, statistical drift detection returns
the graceful `insufficient_data` result (score `0`, p-value `1`, nothing
detected, no severity) — it is a total function and never raises. -/
theorem detect_statistical_drift_empty (pValue : List ℚ → List ℚ → ℚ)
    (driftThreshold : ℚ) (baseline current : List ℚ)
    (h : baseline = [] ∨ current = []) :
    detectStatisticalDrift pValue driftThreshold baseline current =
      { drift_score := 0, p_value := 1, drift_detected := false
        drift_type := "insufficient_data", severity := none } := by
  unfold detectStatisticalDrift
  rcases h with h | h <;> subst h <;> simp

/-- C7 witness: the graceful result at an empty baseline and a non-empty
current sample. -/
theorem detect_statistical_drift_empty_witness :
    detectStatisticalDrift (fun _ _ => 0) (1/10) [] [5] =
      { drift_score := 0, p_value := 1, drift_detected := false
        drift_type := "insufficient_data", severity := none } :=
  detect_statistical_drift_empty (fun _ _ => 0) (1/10) [] [5] (Or.inl rfl)

end Watchtower

namespace Watchtower

/-- One hourly bucket row of the concept-drift accuracy query
(`drift.py` lines 129-140): total predictions and correct predictions in
the bucket, rows in hour order. -/
structure Bucket where
  total : ℕ
  correct : ℕ
deriving DecidableEq, Repr

/-- Per-bucket accuracies: `correct / total` for each bucket with at
least one prediction (`drift.py` lines 152-156). -/
def bucketAccuracies (buckets : List Bucket) : List ℚ :=
  buckets.filterMap fun b =>
    if 0 < b.total then some ((b.correct : ℚ) / (b.total : ℚ)) else none

/-- `np.mean` over a list of rationals. -/
def listMean (l : List ℚ) : ℚ := l.sum / (l.length : ℚ)

/-- The result dictionary of `detect_concept_drift` (`drift.py` lines
166-184); `severity`, `baseline_accuracy` and `recent_accuracy` are
absent (`none`) on the insufficient-data paths, and the `feature_name`
pass-through and `round(·, 4)` presentation rounding are omitted. -/
structure ConceptDriftResult where
  drift_score : ℚ
  p_value : ℚ
  drift_detected : Bool
  drift_type : String
  severity : Option Severity
  baseline_accuracy : Option ℚ
  recent_accuracy : Option ℚ
deriving DecidableEq, Repr

/-- The zero / "not detected" result returned when the query produced no
rows or fewer than two usable buckets exist (`drift.py` lines 143-150 and
158-164). -/
def conceptZeroResult : ConceptDriftResult :=
  { drift_score := 0, p_value := 1, drift_detected := false, drift_type := "concept"
    severity := none, baseline_accuracy := none, recent_accuracy := none }

/-- `DriftDetector.detect_concept_drift` (`drift.py` lines 113-184),
embedded over the hourly bucket rows.  With at least two usable buckets:
`recent_accuracy` is the mean of the last four accuracies when at least
four exist, else the single last accuracy (`accuracies[-1]`);
`baseline_accuracy` is the mean of all but the last four accuracies when
at least eight exist, else the mean of ALL accuracies (`np.mean(accuracies)`,
which overlaps the recent ones); `drift_score = max(0, baseline − recent)`
and drift is detected iff the unclamped drop exceeds `0.05`. -/
def detectConceptDrift (buckets : List Bucket) : ConceptDriftResult :=
  if buckets.isEmpty then conceptZeroResult
  else
    let accuracies := bucketAccuracies buckets
    if accuracies.length < 2 then conceptZeroResult
    else
      let recent :=
        if 4 ≤ accuracies.length then listMean (accuracies.drop (accuracies.length - 4))
        else accuracies.getLastD 0
      let baseline :=
        if 8 ≤ accuracies.length then listMean (accuracies.take (accuracies.length - 4))
        else listMean accuracies
      let accuracyDrop := baseline - recent
      { drift_score := max 0 accuracyDrop
        p_value := if 1/20 < accuracyDrop then 1/100 else 1/2
        drift_detected := decide (1/20 < accuracyDrop)
        drift_type := "concept"
        severity := some (if 1/10 < accuracyDrop then Severity.high
          else if 1/20 < accuracyDrop then Severity.medium else Severity.low)
        baseline_accuracy := some baseline
        recent_accuracy := some recent }

/-- The drift score the claim describes: the mean accuracy of the most
recent four buckets compared against the mean of the preceding,
non-overlapping buckets. -/
def conceptDriftClaimScore (buckets : List Bucket) : ℚ :=
  let accuracies := bucketAccuracies buckets
  max 0 (listMean (accuracies.take (accuracies.length - 4)) -
    listMean (accuracies.drop (accuracies.length - 4)))

end Watchtower

namespace Watchtower

/-- C4 counterexample: on five one-prediction-per-hour buckets with
accuracies `[1, 0, 0, 0, 0]`, the code's drift score is `1/5` (its
baseline is the mean of ALL five accuracies), while the claimed
comparison — recent four buckets against the preceding, non-overlapping
buckets — gives `1`. -/
theorem detect_concept_drift_overlap_cex :
    (detectConceptDrift [⟨1, 1⟩, ⟨1, 0⟩, ⟨1, 0⟩, ⟨1, 0⟩, ⟨1, 0⟩]).drift_score = 1/5 ∧
      conceptDriftClaimScore [⟨1, 1⟩, ⟨1, 0⟩, ⟨1, 0⟩, ⟨1, 0⟩, ⟨1, 0⟩] = 1 ∧
      (1 : ℚ)/5 ≠ 1 := by
  refine ⟨?_, ?_, by norm_num⟩
  · norm_num [detectConceptDrift, bucketAccuracies, listMean, conceptZeroResult,
      List.filterMap_cons]
  · norm_num [conceptDriftClaimScore, bucketAccuracies, listMean, List.filterMap_cons]

/-- C4 (amended): concept drift detection partitions the window into
hourly buckets with per-bucket accuracy; with fewer than two usable
buckets it returns the zero / "not detected" result rather than failing;
otherwise it compares a recent accuracy (mean of the last four bucket
accuracies when at least four exist, else the single last accuracy)
against a baseline (mean of the buckets preceding the recent four when at
least eight exist, else the mean of ALL bucket accuracies, overlapping
the recent ones), returns `drift_score = max(0, baseline − recent)`, and
detects drift iff the drop exceeds `0.05`. -/
theorem detect_concept_drift_spec (buckets : List Bucket) :
    ((bucketAccuracies buckets).length < 2 →
      detectConceptDrift buckets = conceptZeroResult) ∧
    (2 ≤ (bucketAccuracies buckets).length →
      ∃ baseline recent : ℚ,
        baseline = (if 8 ≤ (bucketAccuracies buckets).length then
            listMean ((bucketAccuracies buckets).take ((bucketAccuracies buckets).length - 4))
          else listMean (bucketAccuracies buckets)) ∧
        recent = (if 4 ≤ (bucketAccuracies buckets).length then
            listMean ((bucketAccuracies buckets).drop ((bucketAccuracies buckets).length - 4))
          else (bucketAccuracies buckets).getLastD 0) ∧
        (detectConceptDrift buckets).baseline_accuracy = some baseline ∧
        (detectConceptDrift buckets).recent_accuracy = some recent ∧
        (detectConceptDrift buckets).drift_score = max 0 (baseline - recent) ∧
        ((detectConceptDrift buckets).drift_detected = true ↔
          1/20 < baseline - recent)) := by
  constructor
  · intro h
    cases hbe : buckets.isEmpty with
    | true => simp [detectConceptDrift, hbe]
    | false => simp [detectConceptDrift, hbe, h]
  · intro h
    have hbe : buckets.isEmpty = false := by
      cases buckets with
      | nil => exact absurd h (by simp [bucketAccuracies])
      | cons a l => rfl
    have hlt : ¬ (bucketAccuracies buckets).length < 2 := not_lt.mpr h
    refine ⟨_, _, rfl, rfl, ?_, ?_, ?_, ?_⟩
    · simp [detectConceptDrift, hbe, hlt]
    · simp [detectConceptDrift, hbe, hlt]
    · simp [detectConceptDrift, hbe, hlt]
    · simp [detectConceptDrift, hbe, hlt]

/-- C4 witness: the insufficient-data branch at a single bucket and the
full computation at the five-bucket counterexample input. -/
theorem detect_concept_drift_spec_witness :
    detectConceptDrift [⟨1, 1⟩] = conceptZeroResult ∧
      ∃ baseline recent : ℚ,
        baseline = listMean (bucketAccuracies [⟨1, 1⟩, ⟨1, 0⟩, ⟨1, 0⟩, ⟨1, 0⟩, ⟨1, 0⟩]) ∧
        recent = listMean ((bucketAccuracies [⟨1, 1⟩, ⟨1, 0⟩, ⟨1, 0⟩, ⟨1, 0⟩, ⟨1, 0⟩]).drop 1) ∧
        (detectConceptDrift [⟨1, 1⟩, ⟨1, 0⟩, ⟨1, 0⟩, ⟨1, 0⟩, ⟨1, 0⟩]).drift_score =
          max 0 (baseline - recent) := by
  constructor
  · exact (detect_concept_drift_spec [⟨1, 1⟩]).1 (by simp [bucketAccuracies])
  · obtain ⟨b, r, hb, hr, _, _, hs, _⟩ :=
      (detect_concept_drift_spec [⟨1, 1⟩, ⟨1, 0⟩, ⟨1, 0⟩, ⟨1, 0⟩, ⟨1, 0⟩]).2
        (by simp [bucketAccuracies, List.filterMap_cons])
    refine ⟨b, r, ?_, ?_, hs⟩
    · rw [hb]
      norm_num [bucketAccuracies, List.filterMap_cons]
    · rw [hr]
      norm_num [bucketAccuracies, List.filterMap_cons]

end Watchtower

namespace Watchtower

/-- Outcome of attempting one playbook action: the `try` body of the
action loop in `execute_playbook` (`api/routes/playbooks.py` lines
160-182) either completes with a result message or raises an exception.
The runner is a parameter of the embedding; in the source the body is a
stub that always succeeds, and a raised exception is modelled by `err`. -/
inductive ActionOutcome where
  | ok (result : String)
  | err (message : String)
deriving DecidableEq, Repr

/-- One entry of `actions_executed`: the action, the entry's own status
string (`"success"` or `"failed"`) and the result/error detail; the
per-entry timestamp is an external clock read, omitted. -/
structure ActionLogEntry where
  action : String
  status : String
  detail : String
deriving DecidableEq, Repr

/-- The action loop of `execute_playbook` (`api/routes/playbooks.py`
lines 157-182): every action is attempted in order; a failing action is
caught by the per-action `except`, appends a `failed` entry, and the loop
continues with the next action. -/
def runActions (run : String → ActionOutcome) : List String → List ActionLogEntry
  | [] => []
  | a :: rest =>
      (match run a with
        | ActionOutcome.ok d => { action := a, status := "success", detail := d }
        | ActionOutcome.err e => { action := a, status := "failed", detail := e }) ::
        runActions run rest

/-- The execution record as finalised by `execute_playbook`
(`api/routes/playbooks.py` lines 143-188): after the loop the source
executes `execution_record['status'] = 'completed'` unconditionally. -/
structure ExecutionRecord where
  status : String
  actions_executed : List ActionLogEntry
deriving DecidableEq, Repr

/-- `execute_playbook` (`api/routes/playbooks.py` lines 130-193),
embedded over the playbook's ordered action list and an action runner. -/
def executePlaybook (run : String → ActionOutcome) (actions : List String) :
    ExecutionRecord :=
  { status := "completed", actions_executed := runActions run actions }

/-- The log records every action, in order. -/
lemma runActions_map_action (run : String → ActionOutcome) (actions : List String) :
    (runActions run actions).map (fun e => e.action) = actions := by
  induction actions with
  | nil => rfl
  | cons a rest ih =>
      cases hr : run a <;> simp [runActions, hr, ih]

/-- Every log entry reflects its own action's outcome. -/
lemma runActions_mem (run : String → ActionOutcome) (actions : List String)
    (e : ActionLogEntry) (he : e ∈ runActions run actions) :
    (∃ d, run e.action = ActionOutcome.ok d ∧ e.status = "success" ∧ e.detail = d) ∨
      (∃ m, run e.action = ActionOutcome.err m ∧ e.status = "failed" ∧ e.detail = m) := by
  induction actions with
  | nil => simp [runActions] at he
  | cons a rest ih =>
      rw [runActions] at he
      rcases List.mem_cons.mp he with h | h
      · subst h
        cases hr : run a with
        | ok d =>
            left
            exact ⟨d, by simp [hr], by simp [hr], by simp [hr]⟩
        | err m =>
            right
            exact ⟨m, by simp [hr], by simp [hr], by simp [hr]⟩
      · exact ih h

end Watchtower

namespace Watchtower

/-- C8 counterexample: on a playbook whose single action succeeds, the
execution's terminal status is the string `"completed"` — not
`"success"`, and not one of the claimed terminal statuses
`{"success", "failed"}` at all. -/
theorem execute_playbook_status_cex :
    (executePlaybook (fun _ => ActionOutcome.ok "done") ["notify_team"]).actions_executed =
        [{ action := "notify_team", status := "success", detail := "done" }] ∧
      (executePlaybook (fun _ => ActionOutcome.ok "done") ["notify_team"]).status =
        "completed" ∧
      ("completed" : String) ≠ "success" ∧ ("completed" : String) ≠ "failed" := by
  exact ⟨rfl, rfl, by decide, by decide⟩

/-- C8 (amended): every action of the ordered list is attempted even if
an earlier action failed, each action appends exactly one log entry
carrying its own status (`"success"` or `"failed"` according to the
action's outcome), and the execution's terminal status is always the
single string `"completed"`, independent of the per-action outcomes. -/
theorem execute_playbook_spec (run : String → ActionOutcome) (actions : List String) :
    (executePlaybook run actions).status = "completed" ∧
      (executePlaybook run actions).actions_executed.map (fun e => e.action) = actions ∧
      (executePlaybook run actions).actions_executed.length = actions.length ∧
      ∀ e ∈ (executePlaybook run actions).actions_executed,
        (∃ d, run e.action = ActionOutcome.ok d ∧ e.status = "success" ∧ e.detail = d) ∨
          (∃ m, run e.action = ActionOutcome.err m ∧ e.status = "failed" ∧
            e.detail = m) := by
  refine ⟨rfl, runActions_map_action run actions, ?_, ?_⟩
  · have h := congrArg List.length (runActions_map_action run actions)
    simpa using h
  · intro e he
    exact runActions_mem run actions e he

/-- C8 witness: the amended execution contract at a two-action playbook
whose second action fails — both actions are logged and the terminal
status is still `"completed"`. -/
theorem execute_playbook_spec_witness :
    (executePlaybook
        (fun a => if a = "notify" then ActionOutcome.ok "done" else ActionOutcome.err "boom")
        ["notify", "retrain"]).status = "completed" ∧
      (executePlaybook
        (fun a => if a = "notify" then ActionOutcome.ok "done" else ActionOutcome.err "boom")
        ["notify", "retrain"]).actions_executed.map (fun e => e.action) =
        ["notify", "retrain"] := by
  exact ⟨(execute_playbook_spec _ _).1, (execute_playbook_spec _ _).2.1⟩

end Watchtower
